import Mathlib

/-!
Shallow embedding of the nexus-nf request-dispatch core
(`src/core/nexus-nf.ts`, `src/core/controller.ts`, `src/core/decorators.ts`).

The embedding models the endpoint registry and the per-message dispatch
pipeline: `NexusApp.registerController`, `NexusApp.parseMessageData`,
`NexusApp.formatErrorResponse` and `NexusApp.wrapHandler`, together with the
controller data model (`ControllerBase` and the `@Controller` decorator).

JavaScript exceptions are modelled with `Except`: a function that can throw
returns `Except ErrValue α`, and a `try`/`catch` block is a `match` on that
result.  JSON-ish runtime values are the inductive `Value`.  The `instanceof`
chain in `formatErrorResponse` is modelled by an inductive of the disjoint
runtime classes a thrown value can belong to (`ZodError`, `NatsError`, plain
`Error`, anything else), matched in the same order as the source.
-/

namespace NexusNF

/-- JSON-ish runtime values: the payloads a message can decode to and the
values handlers consume and produce.  `bytes` is the raw `Uint8Array`
payload used by `asBytes` endpoints. -/
inductive Value where
  | null
  | boolean (b : Bool)
  | num (n : Int)
  | str (s : String)
  | arr (vs : List Value)
  | obj (fields : List (String × Value))
  | bytes (bs : List Nat)

/-- One field-level issue of a `ZodError` (`err.issues` entries): a path and a
message, as surfaced in the `details` of a validation error response. -/
structure Issue where
  path : List String
  message : String
deriving DecidableEq

/-- A thrown JavaScript value, classified by the runtime classes the
`instanceof` chain of `formatErrorResponse` distinguishes.  The four
constructors are disjoint, mirroring the fact that the chain tests
`ZodError` first, then `NatsError`, then `Error`, then falls through. -/
inductive ErrValue where
  /-- a `ZodError` carrying its `issues` list -/
  | zodError (issues : List Issue)
  /-- a `NatsError` with its optional `code` and its `name`/`message`/`stack` -/
  | natsError (code : Option String) (name message stack : String)
  /-- any other `Error` instance: `name`/`message`/`stack` -/
  | plainError (name message stack : String)
  /-- a non-`Error` thrown value; the field is its `String(err)` rendering -/
  | nonError (rendering : String)
deriving DecidableEq

/-- The shape of the `details` payload of an `ErrorResponse`, one constructor
per branch of `formatErrorResponse`. -/
inductive Details where
  /-- `err.issues` of a `ZodError` -/
  | issues (is : List Issue)
  /-- `{ name, stack }` of a `NatsError` -/
  | natsDetail (name stack : String)
  /-- `{ name, message, stack }` of a plain `Error` -/
  | errorDetail (name message stack : String)
  /-- `String(err)` of a non-`Error` value -/
  | stringDetail (s : String)
deriving DecidableEq

/-- The `ErrorResponse` wire shape.  `details := none` models the field being
absent (serialising `undefined` drops the key). -/
structure ErrorResponse where
  error : Bool
  code : String
  message : String
  details : Option Details
deriving DecidableEq

/-- `NexusApp.formatErrorResponse` (nexus-nf.ts, lines 197-232), translated
branch by branch; `isDev` is the `NODE_ENV === 'dev'` flag fixed in the
`NexusApp` constructor. -/
def formatErrorResponse (isDev : Bool) (err : ErrValue) : ErrorResponse :=
  match err with
  | .zodError issues =>
      { error := true
        code := "400"
        message := "Bad Request: Validation failed."
        details := some (.issues issues) }
  | .natsError code name message stack =>
      { error := true
        code := code.getD "500"
        message := message
        details := if isDev then some (.natsDetail name stack) else none }
  | .plainError name message stack =>
      { error := true
        code := "500"
        message := "Internal Server Error"
        details := if isDev then some (.errorDetail name message stack) else none }
  | .nonError rendering =>
      { error := true
        code := "500"
        message := "An unknown internal error occurred."
        details := if isDev then some (.stringDetail rendering) else none }

/-- Outcome of calling `msg.json()` on an inbound message: either a decoded
`Value`, or a thrown error; the thrown case distinguishes `SyntaxError` and
`NatsError` (the two classes the decoder's `catch` recovers from) from any
other thrown value. -/
inductive JsonOutcome where
  | ok (v : Value)
  | failSyntax
  | failNats
  | failOther (e : ErrValue)

/-- An inbound NATS message, reduced to the observations the dispatch code
makes of it: raw bytes (`msg.data`), the behaviour of `msg.json()`, the
result of `msg.string()`, the optional headers and the reply subject. -/
structure Msg where
  data : List Nat
  json : JsonOutcome
  string : String
  headers : Option (List (String × String))
  reply : Option String

/-- Endpoint options (`EndpointOptions` in decorators.ts): optional Zod
schema, `asBytes` flag, queue override and metadata.  A schema is modelled as
its `parseAsync` behaviour: a function from the decoded value to either the
parsed value or the issue list of a thrown `ZodError`. -/
structure EndpointOptions where
  schema : Option (Value → Except (List Issue) Value) := none
  asBytes : Option Bool := none
  queue : Option String := none
  metadata : Option (List (String × String)) := none

/-- Outcome of running a handler to completion: a resolved value or a
thrown/rejected error. -/
inductive HandlerOutcome where
  | ok (v : Value)
  | err (e : ErrValue)

/-- A user handler.  `isAsync` records whether calling it yields a `Promise`
(the `returnValue instanceof Promise` test in `wrapHandler`); `run i` is the
behaviour of its `i`-th invocation (zero-based) on a decoded value and the
message headers — indexing by invocation lets the model represent a
side-effectful handler that behaves differently when the dispatch engine
calls it more than once for one message. -/
structure Handler where
  isAsync : Bool
  run : Nat → Value → Option (List (String × String)) → HandlerOutcome

/-- `EndpointEntry` (decorators.ts): name, handler and options of one
declared endpoint. -/
structure EndpointEntry where
  name : String
  handler : Handler
  options : EndpointOptions

/-- The decoding tier of `NexusApp.parseMessageData` (nexus-nf.ts, lines
177-188): the `try`/`catch` that produces `data`.  `asBytes` short-circuits
to the raw byte payload; otherwise `msg.json()` is attempted, a thrown
`NatsError` or `SyntaxError` falls back to `msg.string()`, and any other
thrown value propagates. -/
def decodeTier (endpoint : EndpointEntry) (msg : Msg) : Except ErrValue Value :=
  if endpoint.options.asBytes.getD false then
    .ok (.bytes msg.data)
  else
    match msg.json with
    | .ok v => .ok v
    | .failSyntax => .ok (.str msg.string)
    | .failNats => .ok (.str msg.string)
    | .failOther e => .error e

/-- `NexusApp.parseMessageData` (nexus-nf.ts, lines 176-195): the decoding
tier followed by the optional schema validation
(`endpoint.options.schema.parseAsync(data)`); a failed validation is a thrown
`ZodError`, which propagates to `wrapHandler`'s `catch`. -/
def parseMessageData (endpoint : EndpointEntry) (msg : Msg) : Except ErrValue Value :=
  match decodeTier endpoint msg with
  | .error e => .error e
  | .ok data =>
      match endpoint.options.schema with
      | none => .ok data
      | some schema =>
          match schema data with
          | .ok v => .ok v
          | .error issues => .error (.zodError issues)

/-- A reply published with `msg.respond`: a success envelope
`{error: false, data}` or a serialised `ErrorResponse`. -/
inductive Response where
  | success (data : Value)
  | failure (e : ErrorResponse)

/-- The body of the `try` block in `NexusApp.wrapHandler` (nexus-nf.ts, lines
245-259) up to building the success response.  The first component counts the
number of times `endpoint.handler` is invoked; the second is either the
response to publish or the thrown value the `catch` block receives.

Source being modelled:
```
const data = await this.parseMessageData(endpoint, msg);
const returnValue = endpoint.handler(data, msg.headers);
const result = returnValue instanceof Promise ? await endpoint.handler(data, msg.headers) : returnValue;
```
A synchronous handler throws during the first call (one invocation); an
asynchronous handler's first call (invocation `0`) returns a pending
`Promise` that is bound to `returnValue`, used only for the `instanceof
Promise` test, and never awaited — no rejection handler is ever attached to
it, so if that first invocation rejects, the rejection is NOT caught by the
`try`/`catch`: it escapes as an unhandled promise rejection, recorded in the
middle component of the result (process-fatal under the Node default
unhandled-rejection policy).  The `instanceof Promise` branch then calls the
handler a second time (invocation `1`) and awaits that second call, whose
resolution or rejection is what the `try`/`catch` observes. -/
def tryBlock (endpoint : EndpointEntry) (msg : Msg) :
    Nat × List ErrValue × Except ErrValue Response :=
  match parseMessageData endpoint msg with
  | .error e => (0, [], .error e)
  | .ok data =>
      if endpoint.handler.isAsync then
        let firstUnhandled : List ErrValue :=
          match endpoint.handler.run 0 data msg.headers with
          | .ok _ => []
          | .err e => [e]
        match endpoint.handler.run 1 data msg.headers with
        | .ok v => (2, firstUnhandled, .ok (.success v))
        | .err e => (2, firstUnhandled, .error e)
      else
        match endpoint.handler.run 0 data msg.headers with
        | .ok v => (1, [], .ok (.success v))
        | .err e => (1, [], .error e)

/-- The transport-reported per-message delivery error (`err: NatsError |
null` in the endpoint handler signature). -/
structure NatsErr where
  code : Option String
  name : String
  message : String
  stack : String
deriving DecidableEq

/-- The `ErrValue` a delivered `NatsError` is classified as. -/
def NatsErr.toErrValue (e : NatsErr) : ErrValue :=
  .natsError e.code e.name e.message e.stack

/-- Result of one run of the wrapped handler: how many times the user handler
was invoked, the rejected promises that nothing awaited or attached a
handler to (unhandled promise rejections escaping the `try`/`catch`;
process-fatal under the Node default policy), and the replies published via
`msg.respond`, in order. -/
structure DispatchResult where
  handlerCalls : Nat
  unhandledRejections : List ErrValue
  responses : List Response

/-- `NexusApp.wrapHandler` (nexus-nf.ts, lines 234-270).  The outer `Except`
is the function's own synchronous-exception channel: a `.error` result would
mean an exception escaping `wrapHandler` to the transport.  Unhandled
promise rejections produced inside the `try` body (the discarded first
handler invocation) bypass this channel entirely and are carried in the
result's `unhandledRejections` field.  A transport-reported delivery error
is answered immediately without invoking the handler; otherwise the `try`
body runs and its thrown value, if any, is caught and formatted by
`formatErrorResponse`. -/
def wrapHandler (isDev : Bool) (endpoint : EndpointEntry) (err : Option NatsErr)
    (msg : Msg) : Except ErrValue DispatchResult :=
  match err with
  | some e =>
      .ok { handlerCalls := 0
            unhandledRejections := []
            responses := [.failure (formatErrorResponse isDev e.toErrValue)] }
  | none =>
      match tryBlock endpoint msg with
      | (n, u, .ok r) =>
          .ok { handlerCalls := n, unhandledRejections := u, responses := [r] }
      | (n, u, .error e) =>
          .ok { handlerCalls := n
                unhandledRejections := u
                responses := [.failure (formatErrorResponse isDev e)] }

/-- The data arguments of one `group.addEndpoint(name, {handler, metadata,
queue})` call made during registration (the installed handler is the
`wrapHandler` closure for the endpoint; the data fields are what the claims
observe). -/
structure EndpointBinding where
  name : String
  metadata : List (String × String)
  queue : String
deriving DecidableEq

/-- A transport call issued by `registerController`: `service.addGroup(name)`
or `groupHandle.addEndpoint(...)` under a group. -/
inductive TransportCall where
  | addGroup (name : String)
  | addEndpoint (group : String) (binding : EndpointBinding)
deriving DecidableEq

/-- A controller instance as `registerController` observes it.  `classId`
models the identity of `controller.constructor` (two instances of the same
class share it); `instanceId` models the object identity of the instance
itself (distinct for distinct instances, even of one class).  `queue` is the
controller-level default queue (`controller.queue`). -/
structure Controller where
  instanceId : Nat
  classId : Nat
  group : String
  queue : Option String
  endpoints : List EndpointEntry

/-- The registry state of a `NexusApp`: the key set of the `groups` map and
the `registeredControllers` set of constructor identities. -/
structure AppState where
  groups : List String
  registeredControllers : List Nat
deriving DecidableEq

/-- Errors `registerController` can throw. -/
inductive RegError where
  | duplicateController
deriving DecidableEq

/-- Outcome of one `registerController` call: the thrown error if any, the
registry state afterwards (unchanged when the call throws, since the throw
happens before any mutation), and the transport calls made, in order. -/
structure RegResult where
  error : Option RegError
  state : AppState
  calls : List TransportCall
deriving DecidableEq

/-- `NexusApp.registerController` (nexus-nf.ts, lines 145-174), translated
step by step:
1. if `controller.constructor` is already in `registeredControllers`, throw
   `DuplicateControllerError` (no transport call, no state change);
2. look up the group in the `groups` map, lazily calling
   `service.addGroup(controller.group)` and caching the handle on a miss;
3. for each endpoint, call `group.addEndpoint(endpoint.name, {handler,
   metadata: endpoint.options.metadata ?? {}, queue: endpoint.options.queue
   ?? ''})`;
4. add `controller.constructor` to `registeredControllers`. -/
def registerController (s : AppState) (c : Controller) : RegResult :=
  if c.classId ∈ s.registeredControllers then
    { error := some .duplicateController, state := s, calls := [] }
  else
    let groupCalls : List TransportCall :=
      if c.group ∈ s.groups then [] else [.addGroup c.group]
    let groups' : List String :=
      if c.group ∈ s.groups then s.groups else s.groups ++ [c.group]
    let epCalls : List TransportCall := c.endpoints.map (fun ep =>
      .addEndpoint c.group
        { name := ep.name
          metadata := ep.options.metadata.getD []
          queue := ep.options.queue.getD "" })
    { error := none
      state := { groups := groups'
                 registeredControllers := s.registeredControllers ++ [c.classId] }
      calls := groupCalls ++ epCalls }

/-- A JavaScript array of endpoint entries together with its
`Object.isFrozen` status.  Pushing onto a frozen array throws a `TypeError`
(the code is compiled as strict-mode ES modules). -/
structure FrozenList where
  items : List EndpointEntry
  frozen : Bool

/-- A `TypeError` thrown when mutating a frozen array. -/
inductive JsError where
  | typeError
deriving DecidableEq

/-- `array.push(entry)` semantics: fails on a frozen array, otherwise appends. -/
def FrozenList.push (l : FrozenList) (e : EndpointEntry) : Except JsError FrozenList :=
  if l.frozen then .error .typeError
  else .ok { l with items := l.items ++ [e] }

/-- `Object.freeze` on the array. -/
def FrozenList.freeze (l : FrozenList) : FrozenList :=
  { l with frozen := true }

/-- `ControllerOptions` (controller.ts / decorators.ts): the optional default
queue group of a controller. -/
structure ControllerOptions where
  queue : Option String := none

/-- A constructed controller object as far as the endpoints-list claims
observe it: group name, default queue, and the endpoints array with its
frozen status. -/
structure ConstructedController where
  group : String
  queue : Option String
  endpoints : FrozenList

/-- The `ControllerBase` constructor (controller.ts, lines 86-92):
`this.endpoints = this.constructor.__endpoints__ ?? []` — the instance's
endpoints array is the class-level accumulated array itself, and it is not
frozen. -/
def controllerBaseConstruct (staticEndpoints : List EndpointEntry)
    (group : String) (options : ControllerOptions) : ConstructedController :=
  { group := group
    queue := options.queue
    endpoints := { items := staticEndpoints, frozen := false } }

/-- The constructor installed by the `@Controller` decorator (decorators.ts,
lines 141-159): starts from an empty array, pushes each entry of the class's
`__endpoints__`, then calls `Object.freeze(this.endpoints)`. -/
def controllerDecoratorConstruct (name : String) (options : Option ControllerOptions)
    (staticEndpoints : List EndpointEntry) : ConstructedController :=
  let eps : FrozenList := staticEndpoints.foldl
    (fun acc e => { acc with items := acc.items ++ [e] })
    { items := [], frozen := false }
  { group := name
    queue := options.bind (fun o => o.queue)
    endpoints := eps.freeze }

/-- One iteration of the endpoint-binding loop of `registerController`
(nexus-nf.ts, lines 161-171): the body issues the `addEndpoint` transport
call for the current entry (and logs); it contains no write to the
controller object or its endpoints array, so the controller component of
the accumulator is passed through untouched. -/
def bindEndpointStep (group : String)
    (acc : List TransportCall × ConstructedController) (ep : EndpointEntry) :
    List TransportCall × ConstructedController :=
  (acc.1 ++ [.addEndpoint group
      { name := ep.name
        metadata := ep.options.metadata.getD []
        queue := ep.options.queue.getD "" }],
   acc.2)

/-- The endpoint-binding loop of `registerController` acting on a
constructed controller object: a fold of `bindEndpointStep` over
`controller.endpoints`, returning the transport calls issued, in order,
together with the controller object as it stands after the loop. -/
def registerEndpointsLoop (c : ConstructedController) :
    List TransportCall × ConstructedController :=
  c.endpoints.items.foldl (bindEndpointStep c.group) ([], c)

/-- The handler closure installed at registration (nexus-nf.ts, lines
163-165) dispatching one inbound message for the entry it closed over: it
awaits `wrapHandler`, which only reads the entry's options and handler
(nexus-nf.ts, lines 234-270) — neither contains any write to the controller
object or its endpoints array, so the controller after dispatch is the
controller before. -/
def dispatchMessage (isDev : Bool) (c : ConstructedController)
    (entry : EndpointEntry) (err : Option NatsErr) (msg : Msg) :
    Except ErrValue DispatchResult × ConstructedController :=
  (wrapHandler isDev entry err msg, c)

/-! ### Concrete fixtures used by counterexamples and witnesses -/

/-- The decoded JSON payload of the README example message. -/
def samplePayload : Value := .obj [("a", .num 5), ("b", .num 3)]

/-- An asynchronous handler (returns a `Promise`) resolving to `8` on every
invocation. -/
def asyncAddHandler : Handler :=
  { isAsync := true, run := fun _ _ _ => .ok (.num 8) }

/-- An asynchronous handler whose promise rejects with a plain error
carrying the message `boom` on every invocation. -/
def rejectingAsyncHandler : Handler :=
  { isAsync := true, run := fun _ _ _ => .err (.plainError "Error" "boom" "trace") }

/-- An `add` endpoint with default options and the asynchronous handler. -/
def addEndpointEntry : EndpointEntry :=
  { name := "add", handler := asyncAddHandler, options := {} }

/-- An endpoint with default options and the rejecting asynchronous
handler. -/
def boomEntry : EndpointEntry :=
  { name := "boom", handler := rejectingAsyncHandler, options := {} }

/-- A message whose payload is valid JSON, carrying a reply subject. -/
def addMsg : Msg :=
  { data := [1, 2, 3]
    json := .ok samplePayload
    string := "payload"
    headers := none
    reply := some "inbox-1" }

/-- The empty registry state of a freshly constructed app. -/
def s0 : AppState := { groups := [], registeredControllers := [] }

/-- A `math` controller with default queue `math-workers` and one endpoint
with no queue override. -/
def mathController : Controller :=
  { instanceId := 1
    classId := 1
    group := "math"
    queue := some "math-workers"
    endpoints := [addEndpointEntry] }

/-- First worker instance of controller class `7`, group `math`. -/
def workerA : Controller :=
  { instanceId := 1, classId := 7, group := "math", queue := none, endpoints := [] }

/-- Second, distinct worker instance of the same class `7` and group. -/
def workerB : Controller :=
  { instanceId := 2, classId := 7, group := "math", queue := none, endpoints := [] }

/-- A worker of a different class `8` sharing the group name `math`. -/
def workerC : Controller :=
  { instanceId := 3, classId := 8, group := "math", queue := none, endpoints := [] }

/-- A worker instance used by the duplicate-registration witness. -/
def workerD : Controller :=
  { instanceId := 4, classId := 9, group := "stats", queue := none, endpoints := [] }

/-- A validator rejecting every value with one issue on `secondNumber`. -/
def rejectSchema : Value → Except (List Issue) Value :=
  fun _ => .error [{ path := ["secondNumber"], message := "Expected number, received boolean" }]

/-- An endpoint configured with the rejecting validator. -/
def validatedEntry : EndpointEntry :=
  { name := "add", handler := asyncAddHandler, options := { schema := some rejectSchema } }

/-- A message whose JSON payload will fail validation. -/
def badPayloadMsg : Msg :=
  { data := []
    json := .ok (.obj [("firstNumber", .num 10), ("secondNumber", .boolean true)])
    string := "raw"
    headers := none
    reply := some "inbox-2" }

/-- A plain endpoint used by the decoder claims. -/
def plainEntry : EndpointEntry :=
  { name := "echo", handler := asyncAddHandler, options := {} }

/-- A raw-bytes endpoint (`asBytes: true`). -/
def bytesEntry : EndpointEntry :=
  { name := "blob", handler := asyncAddHandler, options := { asBytes := some true } }

/-- A message whose payload is not valid JSON (`msg.json()` throws a
`SyntaxError`) and reads as the plain string `hello`. -/
def nonJsonMsg : Msg :=
  { data := [104, 101]
    json := .failSyntax
    string := "hello"
    headers := none
    reply := none }

/-- An endpoint entry pushed after construction by the immutability
counterexample. -/
def extraEntry : EndpointEntry :=
  { name := "extra", handler := { isAsync := true, run := fun _ _ _ => .ok .null }, options := {} }

/-! ### Claim theorems -/

/-- C1: evaluation of the dispatch pipeline at a message with a valid,
successfully validated payload on an endpoint whose handler returns a pending
asynchronous computation.  Exactly one success envelope with the resolved
result is published, but `endpoint.handler` is invoked twice — `wrapHandler`
computes `endpoint.handler(data, msg.headers)`, sees a `Promise`, and then
calls `endpoint.handler(data, msg.headers)` a second time and awaits that
second call — contradicting the claim that the handler is invoked exactly
once. -/
theorem async_handler_invoked_twice :
    wrapHandler false addEndpointEntry none addMsg =
      .ok { handlerCalls := 2
            unhandledRejections := []
            responses := [.success (.num 8)] } ∧ (2 : Nat) ≠ 1 :=
  ⟨rfl, by decide⟩

/-- C2: evaluation of `registerController` for a controller whose default
queue is `math-workers` and whose endpoint has no queue override.  The
`addEndpoint` transport call receives the queue `""` (from
`endpoint.options.queue ?? ''`), not the group default `math-workers`: the
owning group's queue is never consulted, contradicting the claim. -/
theorem group_default_queue_not_applied :
    mathController.queue = some "math-workers" ∧
    (registerController s0 mathController).calls =
      [.addGroup "math",
       .addEndpoint "math" { name := "add", metadata := [], queue := "" }] ∧
    ("" : String) ≠ "math-workers" :=
  ⟨rfl, rfl, by decide⟩

/-- C3 counterexample: two distinct controller instances of the same class
(same constructor identity `7`) share the group name `math`; the first
registration succeeds but the second throws `DuplicateControllerError`,
because the registry is keyed by constructor identity, so the claim that
both registrations succeed is false. -/
theorem same_class_second_registration_throws :
    workerA.instanceId ≠ workerB.instanceId ∧
    workerA.group = workerB.group ∧
    (registerController s0 workerA).error = none ∧
    (registerController (registerController s0 workerA).state workerB).error =
      some .duplicateController :=
  ⟨by decide, rfl, rfl, rfl⟩

/-- C10 counterexample: a controller instance constructed through the
`ControllerBase` constructor (controller.ts) has an endpoints array that is
not frozen, and appending an entry to it after construction succeeds,
contradicting the claim that appending fails for every constructed
controller instance. -/
theorem controllerBase_append_succeeds :
    ((controllerBaseConstruct [] "test" {}).endpoints.push extraEntry) =
      .ok { items := [extraEntry], frozen := false } ∧
    (controllerBaseConstruct [] "test" {}).endpoints.frozen = false :=
  ⟨rfl, rfl⟩

/-- Threading lemma for the endpoint-binding loop: each iteration only
appends a transport call, so the controller component of the accumulator is
passed through every iteration untouched. -/
theorem bindEndpointStep_foldl_snd (group : String) (l : List EndpointEntry)
    (p : List TransportCall × ConstructedController) :
    (l.foldl (bindEndpointStep group) p).2 = p.2 := by
  induction l generalizing p with
  | nil => rfl
  | cons hd tl ih =>
    rw [List.foldl_cons, ih]
    rfl

/-- The calls accumulated by the endpoint-binding loop are exactly one
`addEndpoint` per entry, in order, derived by reading the entries. -/
theorem bindEndpointStep_foldl_fst (group : String) (l : List EndpointEntry)
    (p : List TransportCall × ConstructedController) :
    (l.foldl (bindEndpointStep group) p).1 =
      p.1 ++ l.map (fun ep => TransportCall.addEndpoint group
        { name := ep.name
          metadata := ep.options.metadata.getD []
          queue := ep.options.queue.getD "" }) := by
  induction l generalizing p with
  | nil => simp
  | cons hd tl ih =>
    rw [List.foldl_cons, ih]
    simp [bindEndpointStep]

/-- C10 (amended): a controller instance constructed through the
`@Controller` decorator (decorators.ts) freezes its endpoints array at
construction time, so appending an entry to it afterwards fails with a
`TypeError`; and every registration and dispatch operation leaves the
endpoints list unchanged — the registration loop derives one `addEndpoint`
call per entry purely by reading the list and returns the controller object
(hence its endpoints list and frozen status) unchanged, and per-message
dispatch through a registered entry also returns the controller object
unchanged.  (The append part does not extend to a `ControllerBase`
-constructed instance, whose endpoints array is not frozen, as the
counterexample shows.) -/
theorem decorator_append_fails_and_operations_preserve
    (name : String) (options : Option ControllerOptions)
    (eps : List EndpointEntry) (e : EndpointEntry) (c : ConstructedController)
    (isDev : Bool) (entry : EndpointEntry) (err : Option NatsErr) (msg : Msg) :
    ((controllerDecoratorConstruct name options eps).endpoints.push e) =
      .error .typeError ∧
    (registerEndpointsLoop c).2 = c ∧
    (registerEndpointsLoop c).1 = c.endpoints.items.map (fun ep =>
      TransportCall.addEndpoint c.group
        { name := ep.name
          metadata := ep.options.metadata.getD []
          queue := ep.options.queue.getD "" }) ∧
    (dispatchMessage isDev c entry err msg).2 = c := by
  refine ⟨?_, ?_, ?_, rfl⟩
  · simp [controllerDecoratorConstruct, FrozenList.push, FrozenList.freeze]
  · unfold registerEndpointsLoop
    rw [bindEndpointStep_foldl_snd]
  · unfold registerEndpointsLoop
    rw [bindEndpointStep_foldl_fst]
    rfl

/-- C4: the error classifier maps a handler-thrown structured error (a plain
`Error` with name, message and stack, i.e. not a validation failure and not a
transport delivery error) to code `500` with the fixed message
`Internal Server Error`; the thrown error's own message never reaches the
envelope's message field and the name/message/stack detail appears only as
the dev-gated details payload. -/
theorem plain_error_maps_to_fixed_500 (isDev : Bool) (name message stack : String) :
    formatErrorResponse isDev (.plainError name message stack) =
      { error := true
        code := "500"
        message := "Internal Server Error"
        details := if isDev then some (.errorDetail name message stack) else none } := by
  cases isDev <;> rfl

/-- C6: outside development mode the envelope for a handler-thrown plain
error is the fixed value with no details field at all, identical for any two
thrown errors; in development mode the details are present and carry the
thrown error's message. -/
theorem prod_envelope_is_error_independent (n₁ m₁ s₁ n₂ m₂ s₂ : String) :
    formatErrorResponse false (.plainError n₁ m₁ s₁) =
      { error := true
        code := "500"
        message := "Internal Server Error"
        details := none } ∧
    formatErrorResponse false (.plainError n₁ m₁ s₁) =
      formatErrorResponse false (.plainError n₂ m₂ s₂) ∧
    (formatErrorResponse true (.plainError n₁ m₁ s₁)).details =
      some (.errorDetail n₁ m₁ s₁) :=
  ⟨rfl, rfl, rfl⟩

/-- C3 (amended): two distinct controller instances that share a group name
but have distinct constructor identities both register successfully; the
transport group is created by `addGroup` only during the first registration,
and the second registration issues no `addGroup` call and leaves the group
map unchanged, reusing the existing binding.  (Two distinct instances of the
same class are rejected instead, as the counterexample shows: the registry
is keyed by constructor identity.) -/
theorem distinct_class_same_group_shares_binding (s : AppState) (c₁ c₂ : Controller)
    (h₁ : c₁.classId ∉ s.registeredControllers)
    (h₂ : c₂.classId ∉ s.registeredControllers)
    (hne : c₂.classId ≠ c₁.classId)
    (hg : c₂.group = c₁.group)
    (hng : c₁.group ∉ s.groups) :
    (registerController s c₁).error = none ∧
    (registerController (registerController s c₁).state c₂).error = none ∧
    TransportCall.addGroup c₁.group ∈ (registerController s c₁).calls ∧
    (∀ g, TransportCall.addGroup g ∉
      (registerController (registerController s c₁).state c₂).calls) ∧
    (registerController (registerController s c₁).state c₂).state.groups =
      (registerController s c₁).state.groups := by
  have e₁ : registerController s c₁ =
      { error := none
        state := { groups := s.groups ++ [c₁.group]
                   registeredControllers := s.registeredControllers ++ [c₁.classId] }
        calls := [.addGroup c₁.group] ++ c₁.endpoints.map (fun ep =>
          .addEndpoint c₁.group
            { name := ep.name
              metadata := ep.options.metadata.getD []
              queue := ep.options.queue.getD "" }) } := by
    simp [registerController, h₁, hng]
  have hmem₂ : c₂.classId ∉ s.registeredControllers ++ [c₁.classId] := by
    simp [List.mem_append, h₂, hne]
  have hgrp₂ : c₂.group ∈ s.groups ++ [c₁.group] := by
    simp [List.mem_append, hg]
  have e₂ : registerController (registerController s c₁).state c₂ =
      { error := none
        state := { groups := s.groups ++ [c₁.group]
                   registeredControllers :=
                     (s.registeredControllers ++ [c₁.classId]) ++ [c₂.classId] }
        calls := c₂.endpoints.map (fun ep =>
          .addEndpoint c₂.group
            { name := ep.name
              metadata := ep.options.metadata.getD []
              queue := ep.options.queue.getD "" }) } := by
    rw [e₁]
    simp [registerController, hmem₂, hgrp₂, hg]
  refine ⟨by rw [e₁], by rw [e₂], by rw [e₁]; exact List.mem_cons_self _ _, ?_, ?_⟩
  · intro g
    rw [e₂]
    simp [List.mem_map]
  · rw [e₂, e₁]

/-- C3 witness: concrete instantiation with the empty registry, `workerA`
(class `7`) and `workerC` (class `8`), both of group `math`. -/
theorem distinct_class_same_group_shares_binding_witness :
    (registerController s0 workerA).error = none ∧
    (registerController (registerController s0 workerA).state workerC).error = none ∧
    TransportCall.addGroup workerA.group ∈ (registerController s0 workerA).calls ∧
    (∀ g, TransportCall.addGroup g ∉
      (registerController (registerController s0 workerA).state workerC).calls) ∧
    (registerController (registerController s0 workerA).state workerC).state.groups =
      (registerController s0 workerA).state.groups :=
  distinct_class_same_group_shares_binding s0 workerA workerC
    (by decide) (by decide) (by decide) rfl (by decide)

/-- C5: a message whose decoded value is rejected by the endpoint's
validator is answered with the error envelope of code `400`, the fixed
message `Bad Request: Validation failed.` and the structured issue list as
details, with the handler never invoked, for either value of the
deployment-mode flag. -/
theorem validation_failure_replies_400 (isDev : Bool) (endpoint : EndpointEntry)
    (msg : Msg) (schema : Value → Except (List Issue) Value) (v : Value)
    (issues : List Issue)
    (hs : endpoint.options.schema = some schema)
    (hd : decodeTier endpoint msg = .ok v)
    (hv : schema v = .error issues) :
    wrapHandler isDev endpoint none msg =
      .ok { handlerCalls := 0
            unhandledRejections := []
            responses := [.failure
              { error := true
                code := "400"
                message := "Bad Request: Validation failed."
                details := some (.issues issues) }] } := by
  simp [wrapHandler, tryBlock, parseMessageData, hd, hs, hv, formatErrorResponse]

/-- C5 witness: the validator rejecting with one issue on `secondNumber`
yields the concrete `400` reply, already in development mode where the claim
requires the details nonetheless unchanged. -/
theorem validation_failure_replies_400_witness :
    wrapHandler true validatedEntry none badPayloadMsg =
      .ok { handlerCalls := 0
            unhandledRejections := []
            responses := [.failure
              { error := true
                code := "400"
                message := "Bad Request: Validation failed."
                details := some (.issues
                  [{ path := ["secondNumber"]
                     message := "Expected number, received boolean" }]) }] } :=
  validation_failure_replies_400 true validatedEntry badPayloadMsg rejectSchema
    (.obj [("firstNumber", .num 10), ("secondNumber", .boolean true)])
    [{ path := ["secondNumber"], message := "Expected number, received boolean" }]
    rfl rfl rfl

/-- C7: for a non-raw-bytes endpoint the decoder returns the structured JSON
value when `msg.json()` succeeds, falls back to the plain string payload
without throwing exactly when the failure is a `SyntaxError` or `NatsError`
(the not-valid-structured-data failure kinds), and propagates any other
failure unchanged; for a raw-bytes endpoint the decoded value is the exact
original byte payload regardless of the JSON outcome. -/
theorem decode_fallback_and_raw_bytes (endpoint : EndpointEntry) (msg : Msg) :
    (endpoint.options.asBytes.getD false = false →
      (∀ v, msg.json = .ok v → decodeTier endpoint msg = .ok v) ∧
      (msg.json = .failSyntax → decodeTier endpoint msg = .ok (.str msg.string)) ∧
      (msg.json = .failNats → decodeTier endpoint msg = .ok (.str msg.string)) ∧
      (∀ e, msg.json = .failOther e → decodeTier endpoint msg = .error e)) ∧
    (endpoint.options.asBytes.getD false = true →
      decodeTier endpoint msg = .ok (.bytes msg.data)) := by
  constructor
  · intro hb
    refine ⟨fun v hv => ?_, fun hv => ?_, fun hv => ?_, fun e hv => ?_⟩ <;>
      simp [decodeTier, hb, hv]
  · intro hb
    simp [decodeTier, hb]

/-- C7 witness: a non-JSON payload decodes to the plain string `hello` on a
structured endpoint, and the same message decodes to the raw bytes on a
raw-bytes endpoint. -/
theorem decode_fallback_and_raw_bytes_witness :
    decodeTier plainEntry nonJsonMsg = .ok (.str "hello") ∧
    decodeTier bytesEntry nonJsonMsg = .ok (.bytes [104, 101]) :=
  ⟨((decode_fallback_and_raw_bytes plainEntry nonJsonMsg).1 rfl).2.1 rfl,
   (decode_fallback_and_raw_bytes bytesEntry nonJsonMsg).2 rfl⟩

/-- C8: after a successful registration of a controller instance,
registering the exact same instance again fails with
`DuplicateControllerError`, makes no transport call and leaves the registry
state unchanged. -/
theorem duplicate_instance_reregistration_fails (s : AppState) (c : Controller)
    (h : (registerController s c).error = none) :
    (registerController (registerController s c).state c).error =
      some .duplicateController ∧
    (registerController (registerController s c).state c).state =
      (registerController s c).state ∧
    (registerController (registerController s c).state c).calls = [] := by
  have hmem : c.classId ∉ s.registeredControllers := by
    intro hc
    simp [registerController, hc] at h
  have hin : c.classId ∈ (registerController s c).state.registeredControllers := by
    simp [registerController, hmem]
  set s₁ := (registerController s c).state with hs₁
  refine ⟨?_, ?_, ?_⟩ <;> simp [registerController, hin]

/-- C8 witness: registering the instance `workerD` twice on the empty
registry. -/
theorem duplicate_instance_reregistration_fails_witness :
    (registerController (registerController s0 workerD).state workerD).error =
      some .duplicateController ∧
    (registerController (registerController s0 workerD).state workerD).state =
      (registerController s0 workerD).state ∧
    (registerController (registerController s0 workerD).state workerD).calls = [] :=
  duplicate_instance_reregistration_fails s0 workerD rfl

/-- C9: evaluation of the dispatch pipeline at a message whose asynchronous
handler rejects.  The awaited second invocation's rejection is caught and
answered with an error envelope, but the first invocation's rejected
promise — bound to `returnValue` (nexus-nf.ts, line 248), used only for the
`instanceof Promise` test, and never awaited — escapes the `try`/`catch` as
an unhandled promise rejection, process-fatal under the Node default
unhandled-rejection policy: the failure is not fully absorbed by the
wrapped handler, contradicting the claim that a single message can never
cause the service process to fail. -/
theorem rejecting_async_handler_leaves_unhandled_rejection :
    wrapHandler false boomEntry none addMsg =
      .ok { handlerCalls := 2
            unhandledRejections := [.plainError "Error" "boom" "trace"]
            responses := [.failure
              { error := true
                code := "500"
                message := "Internal Server Error"
                details := none }] } ∧
    [ErrValue.plainError "Error" "boom" "trace"] ≠ ([] : List ErrValue) :=
  ⟨rfl, by decide⟩

end NexusNF
